import Mathlib

/-!
Verification development for the `invoice-alerts` service
(`src/invoice-alerts/rules.py`, `src/invoice-alerts/main.py`,
`src/invoice-alerts/supa.py`).

The Python source works over loosely-typed JSON dictionaries.  The shallow
embedding below types each record with exactly the keys the translated
functions read; numeric JSON values are modelled as exact rationals (the
claims under study exercise only small decimal literals, where IEEE floats
and rationals agree), and a JSON scalar that may be either a number or a
string is modelled by `JV`.  String primitives (strip/lower/join/substring)
are implemented over character lists so that every definition evaluates by
kernel reduction.
-/

set_option maxRecDepth 8000

/-- A JSON scalar value as consumed by the numeric coercions of the service:
either a number or a string (absence is modelled by `Option JV`). -/
inductive JV where
  | num (q : ℚ)
  | str (s : String)
deriving DecidableEq, Repr

/-- Python truthiness for a string: `""` is falsy, everything else truthy. -/
def strTruthy (s : String) : Bool := s ≠ ""

/-- Python `a or b` on two optional strings (`None` and `""` are falsy). -/
def pyOrS (a b : Option String) : Option String :=
  match a with
  | some s => if strTruthy s then some s else b
  | none => b

/-- Python `a or b` where the result is forced to a string by a final
string literal (e.g. `x or "Fee"`). -/
def strOr (a : Option String) (b : String) : String :=
  match a with
  | some s => if strTruthy s then s else b
  | none => b

/-- Python truthiness of a JSON scalar: `0` and `""` are falsy. -/
def jvTruthy : JV → Bool
  | .num q => q ≠ 0
  | .str s => s ≠ ""

/-- Python `a or b` on two optional JSON scalars. -/
def pyOrJ (a b : Option JV) : Option JV :=
  match a with
  | some v => if jvTruthy v then some v else b
  | none => b

/-- Whitespace as stripped by Python `str.strip()` (the ASCII cases). -/
def isSpaceChar (c : Char) : Bool :=
  c = ' ' || c = '\t' || c = '\n' || c = '\r' || c = '\x0b' || c = '\x0c'

/-- Python `str.strip()`. -/
def pyStrip (s : String) : String :=
  (((s.data.dropWhile isSpaceChar).reverse.dropWhile isSpaceChar).reverse).asString

/-- Python `str.lower()` (ASCII mapping; the modelled data is ASCII). -/
def pyLower (s : String) : String := (s.data.map Char.toLower).asString

/-- Python `sep.join(parts)` on character lists. -/
def joinChars (sep : List Char) : List String → List Char
  | [] => []
  | [x] => x.data
  | x :: xs => x.data ++ sep ++ joinChars sep xs

/-- Python `" ".join(parts)` / `", ".join(parts)`. -/
def pyJoin (sep : String) (parts : List String) : String :=
  (joinChars sep.data parts).asString

/-- Python `needle in hay` substring test on character lists. -/
def listContains : List Char → List Char → Bool
  | [], needle => needle.isEmpty
  | hay@(_ :: t), needle => needle.isPrefixOf hay || listContains t needle

/-- Python `kw in hay` substring test on strings. -/
def strContains (hay kw : String) : Bool := listContains hay.data kw.data

/-- Digit list to natural number (empty list means 0). -/
def digitsToNat (cs : List Char) : ℕ :=
  cs.foldl (fun acc c => acc * 10 + (c.toNat - '0'.toNat)) 0

/-- Decimal literal parser standing in for Python `float(s)` on the strings
the service feeds it: an optional sign, then digits with an optional single
decimal point (at least one digit overall).  Exponent/`inf`/`nan` forms are
not modelled; no claim exercises string-typed numerics. -/
def parseDecimal (s : String) : Option ℚ :=
  let cs := s.data
  let sg : ℤ := if cs.head? = some '-' then -1 else 1
  let body := if cs.head? = some '-' ∨ cs.head? = some '+' then cs.drop 1 else cs
  let ip := body.takeWhile (fun c => c ≠ '.')
  let rest := body.dropWhile (fun c => c ≠ '.')
  let fp := rest.drop 1
  if fp.contains '.' then none
  else if ¬ (ip.all Char.isDigit ∧ fp.all Char.isDigit) then none
  else if ip = [] ∧ fp = [] then none
  else some (mkRat (sg * (digitsToNat ip * 10 ^ fp.length + digitsToNat fp : ℕ)) (10 ^ fp.length))

/-- `_to_float` (rules.py lines 33-46 / main.py lines 109-121): numbers pass
through, strings are stripped of whitespace, `$` and `,` and parsed, anything
else yields `None`. -/
def toFloat (v : Option JV) : Option ℚ :=
  match v with
  | none => none
  | some (.num q) => some q
  | some (.str s) =>
      let t := ((pyStrip s).data.filter (fun c => c ≠ '$' ∧ c ≠ ',')).asString
      if t = "" then none else parseDecimal t

/-- Python `round(q, 2)` stand-in on exact rationals (half-up; Python uses
banker's rounding on binary floats, but no claim under study depends on the
rounding rule — the synthesis branch that uses it is exactly the one the
anti-spam guard disables). -/
def round2 (q : ℚ) : ℚ := mkRat (q * 100 + mkRat 1 2).floor 100

/-- `_norm` (rules.py lines 15-20): `None` becomes `""`, strings are
stripped and lower-cased. -/
def norm (s : Option String) : String := pyLower (pyStrip (s.getD ""))

/-- Code-point comparison of strings, as Python's `sorted` uses. -/
def charListLe : List Char → List Char → Bool
  | [], _ => true
  | _ :: _, [] => false
  | a :: as, b :: bs =>
      if a.toNat < b.toNat then true
      else if a.toNat = b.toNat then charListLe as bs
      else false

/-- Insert a string into a (sorted) list, keeping it sorted. -/
def insSorted (s : String) : List String → List String
  | [] => [s]
  | t :: ts => if charListLe s.data t.data then s :: t :: ts else t :: insSorted s ts

/-- Python `sorted` on a list of strings (code-point order). -/
def sortStrings (l : List String) : List String := l.foldr insSorted []

/-- Add a keyword to the matched-keyword set (insertion-ordered, deduplicated;
the source uses a Python `set` whose only observations are emptiness and the
sorted element list). -/
def insertKw (s : String) (l : List String) : List String :=
  if l.contains s then l else l ++ [s]

-- ---------------------------------------------------------------------
-- Data model: line items, invoices, rules (the keys the source reads)
-- ---------------------------------------------------------------------

/-- A parsed-invoice line item, with every key `rules.py` / `main.py` read. -/
structure LineItem where
  description : Option String := none
  name : Option String := none
  desc : Option String := none
  quantity : Option JV := none
  qty : Option JV := none
  unit_price : Option JV := none
  rate : Option JV := none
  price : Option JV := none
  total : Option JV := none
  amount : Option JV := none
  line_total : Option JV := none
  extended : Option JV := none
  ext_amount : Option JV := none
  value : Option JV := none
  subtotal : Option JV := none
  charge : Option JV := none
deriving DecidableEq, Repr

/-- A `parsed_invoices` row as consumed by the alert pipeline. -/
structure Invoice where
  id : Option String := none
  vendor_name : Option String := none
  vendor_normalized : Option String := none
  invoice_number : Option String := none
  airport_code : Option String := none
  tail_number : Option String := none
  doc_type : Option String := none
  currency : Option String := none
  total : Option JV := none
  handling_fee : Option JV := none
  service_fee : Option JV := none
  surcharge : Option JV := none
  risk_score : Option JV := none
  review_required : Bool := false
  line_items : List LineItem := []
deriving DecidableEq, Repr

/-- The three invoice columns `_pick_fee_details` reads for its named
sub-fee fallback. -/
structure FeeFields where
  handling_fee : Option JV := none
  service_fee : Option JV := none
  surcharge : Option JV := none
deriving DecidableEq, Repr

/-- Projection of an invoice onto the fields `_pick_fee_details` reads. -/
def Invoice.fees (inv : Invoice) : FeeFields :=
  { handling_fee := inv.handling_fee, service_fee := inv.service_fee,
    surcharge := inv.surcharge }

/-- An `invoice_alert_rules` row, with every key `rule_matches` reads.
`min_line_item_amount` is a column a rule row may carry but which no code in
the service ever reads; it is present so that claims about per-line-item
minimums can be stated. -/
structure Rule where
  id : String
  name : Option String := none
  is_enabled : Option Bool := none
  enabled : Option Bool := none
  keywords : Option (List String) := none
  min_total : Option JV := none
  min_handling_fee : Option JV := none
  min_service_fee : Option JV := none
  min_surcharge : Option JV := none
  min_risk_score : Option JV := none
  require_charged_line_items : Bool := false
  vendor_normalized_in : Option (List String) := none
  doc_type_in : Option (List String) := none
  airport_code_in : Option (List String) := none
  require_review_required : Option Bool := none
  min_line_item_amount : Option JV := none
deriving DecidableEq, Repr

/-- `RuleMatchResult` (rules.py lines 7-12). -/
structure RuleMatchResult where
  matched : Bool
  reason : String
  matched_line_items : List LineItem
  matched_keywords : List String
deriving DecidableEq, Repr

-- ---------------------------------------------------------------------
-- rules.py
-- ---------------------------------------------------------------------

/-- `_is_rule_enabled` (rules.py lines 49-54): `is_enabled` wins when
present, else `enabled`; boolean truthiness of the value. -/
def isRuleEnabled (r : Rule) : Bool :=
  match r.is_enabled with
  | some b => b
  | none => r.enabled.getD false

/-- `_is_waived_line_item` (rules.py lines 57-69): positive quantity and
unit price but near-zero total. -/
def isWaivedLineItem (li : LineItem) : Bool :=
  let q := (toFloat li.quantity).getD 0
  let u := (toFloat li.unit_price).getD 0
  let t := (toFloat li.total).getD 0
  q > 0 ∧ u > 0 ∧ |t| < mkRat 1 100

/-- `_line_item_is_charged` (rules.py lines 72-78): total strictly above the
epsilon. -/
def lineItemIsCharged (li : LineItem) : Bool :=
  ((toFloat li.total).getD 0) > mkRat 1 100

/-- `_keyword_match` (rules.py lines 81-139). -/
def keywordMatch (keywords : List String) (inv : Invoice)
    (requireChargedLineItems : Bool) : List String × List LineItem :=
  let kws := (keywords.map (fun k => norm (some k))).filter strTruthy
  if kws.isEmpty then ([], [])
  else
    let invoiceText := pyJoin " "
      [norm inv.vendor_name, norm inv.vendor_normalized, norm inv.invoice_number,
       norm inv.airport_code, norm inv.tail_number, norm inv.doc_type]
    let step := fun (acc : List String × List LineItem) (li : LineItem) =>
      let hay := norm (pyOrS li.description (pyOrS li.name li.desc))
      let inner := kws.foldl (fun (p : List String × Bool) kw =>
          if strContains hay kw || strContains invoiceText kw then
            (insertKw kw p.1, p.2 || strContains hay kw)
          else p)
        (acc.1, false)
      if inner.2 then
        if requireChargedLineItems && !(lineItemIsCharged li) then (inner.1, acc.2)
        else (inner.1, acc.2 ++ [li])
      else (inner.1, acc.2)
    let r := inv.line_items.foldl step ([], [])
    let mkws :=
      if r.1.isEmpty then
        kws.foldl (fun acc kw => if strContains invoiceText kw then insertKw kw acc else acc) []
      else r.1
    (mkws, r.2)

/-- Python `int(v)` on the values the risk-score check feeds it: numbers are
truncated toward zero, integer-literal strings parse, anything else fails. -/
def toIntPy (v : JV) : Option ℤ :=
  match v with
  | .num q => some (if q ≥ 0 then q.floor else -((-q).floor))
  | .str s =>
      let t := pyStrip s
      let body := if t.data.head? = some '-' ∨ t.data.head? = some '+'
        then t.data.drop 1 else t.data
      let sg : ℤ := if t.data.head? = some '-' then -1 else 1
      if body ≠ [] ∧ body.all Char.isDigit then some (sg * (digitsToNat body : ℤ))
      else none

/-- The vendor allow-list guard of `rule_matches` (rules.py lines 147,
152, 156-159). -/
def vendorFilterFails (r : Rule) (inv : Invoice) : Bool :=
  let allowed := r.vendor_normalized_in.getD []
  if allowed.isEmpty then false
  else
    let allowedNorm := (allowed.map (fun x => norm (some x))).filter strTruthy
    !(allowedNorm.contains (norm (pyOrS inv.vendor_normalized inv.vendor_name)))

/-- The doc-type allow-list guard of `rule_matches` (rules.py lines 148,
153, 161-164). -/
def docTypeFilterFails (r : Rule) (inv : Invoice) : Bool :=
  let allowed := r.doc_type_in.getD []
  if allowed.isEmpty then false
  else
    let allowedNorm := (allowed.map (fun x => norm (some x))).filter strTruthy
    !(allowedNorm.contains (norm inv.doc_type))

/-- The airport allow-list guard of `rule_matches` (rules.py lines 149,
154, 166-169). -/
def airportFilterFails (r : Rule) (inv : Invoice) : Bool :=
  let allowed := r.airport_code_in.getD []
  if allowed.isEmpty then false
  else
    let allowedNorm := (allowed.map (fun x => norm (some x))).filter strTruthy
    !(allowedNorm.contains (norm inv.airport_code))

/-- The review-required guard (rules.py lines 171-173): only the literal
`True` triggers it. -/
def reviewFails (r : Rule) (inv : Invoice) : Bool :=
  r.require_review_required = some true && !inv.review_required

/-- The `min_total` threshold guard (rules.py line 188). -/
def minTotalFails (r : Rule) (inv : Invoice) : Bool :=
  match toFloat r.min_total, toFloat inv.total with
  | some m, some t => t < m
  | _, _ => false

/-- The `min_handling_fee` threshold guard (rules.py line 190). -/
def minHandlingFails (r : Rule) (inv : Invoice) : Bool :=
  match toFloat r.min_handling_fee, toFloat inv.handling_fee with
  | some m, some t => t < m
  | _, _ => false

/-- The `min_service_fee` threshold guard (rules.py line 192). -/
def minServiceFails (r : Rule) (inv : Invoice) : Bool :=
  match toFloat r.min_service_fee, toFloat inv.service_fee with
  | some m, some t => t < m
  | _, _ => false

/-- The `min_surcharge` threshold guard (rules.py line 194). -/
def minSurchargeFails (r : Rule) (inv : Invoice) : Bool :=
  match toFloat r.min_surcharge, toFloat inv.surcharge with
  | some m, some t => t < m
  | _, _ => false

/-- The `min_risk_score` threshold guard (rules.py lines 196-201):
`int()` failures are swallowed. -/
def riskFails (r : Rule) (inv : Invoice) : Bool :=
  match r.min_risk_score, inv.risk_score with
  | some mv, some iv =>
      match toIntPy iv, toIntPy mv with
      | some a, some b => a < b
      | _, _ => false
  | _, _ => false

/-- `rule_matches` (rules.py lines 142-237). -/
def ruleMatches (r : Rule) (inv : Invoice) : RuleMatchResult :=
  if !(isRuleEnabled r) then ⟨false, "rule disabled", [], []⟩
  else if vendorFilterFails r inv then ⟨false, "vendor not in vendor_normalized_in", [], []⟩
  else if docTypeFilterFails r inv then ⟨false, "doc_type not in doc_type_in", [], []⟩
  else if airportFilterFails r inv then ⟨false, "airport_code not in airport_code_in", [], []⟩
  else if reviewFails r inv then ⟨false, "invoice not review_required", [], []⟩
  else if minTotalFails r inv then ⟨false, "total below min_total", [], []⟩
  else if minHandlingFails r inv then ⟨false, "handling_fee below min_handling_fee", [], []⟩
  else if minServiceFails r inv then ⟨false, "service_fee below min_service_fee", [], []⟩
  else if minSurchargeFails r inv then ⟨false, "surcharge below min_surcharge", [], []⟩
  else if riskFails r inv then ⟨false, "risk_score below min_risk_score", [], []⟩
  else
    let keywords := r.keywords.getD []
    let reqCharged := r.require_charged_line_items
    let km := keywordMatch keywords inv reqCharged
    if !keywords.isEmpty && km.1.isEmpty then ⟨false, "no keyword match", [], []⟩
    else if reqCharged && km.2.isEmpty then
      ⟨false, "no charged line item matches", [], sortStrings km.1⟩
    else
      let reason :=
        if !km.1.isEmpty then "keyword match: " ++ pyJoin ", " (sortStrings km.1)
        else "matched"
      ⟨true, reason, km.2, sortStrings km.1⟩

example : toFloat (some (.str " $1,500.25 ")) = some (mkRat 150025 100) := by decide
example : toFloat (some (.str "abc")) = none := by decide
example :
    (ruleMatches { id := "r", is_enabled := some true, keywords := some ["handling"] }
      { line_items := [{ description := some "Handling Fee", total := some (.num 150) }] }).matched
      = true := by decide

-- ---------------------------------------------------------------------
-- main.py: fee resolution (`_pick_fee_details`) and actionability
-- ---------------------------------------------------------------------

/-- The resolver's result dictionary: `{"fee_name": ..., "fee_amount": ...}`.
`fee_name` is always a string on exit (the initialisation chain ends in the
literal `"Fee"`); `fee_amount` holds `None`, a probed/synthesised number, or
a raw invoice column value. -/
structure FeeDetails where
  fee_name : String
  fee_amount : Option JV
deriving DecidableEq, Repr

/-- Python `fee_amount in (None, "")` (main.py lines 377, 383). -/
def feeBlank : Option JV → Bool
  | none => true
  | some (.str s) => s = ""
  | some (.num _) => false

/-- Python `invoice.get(k) not in (None, "")` (main.py lines 386, 391, 396). -/
def jvPresent : Option JV → Bool
  | none => false
  | some (.str s) => s ≠ ""
  | some (.num _) => true

/-- Truthiness of the optional `rule_name` argument (main.py line 383). -/
def strTruthyO : Option String → Bool
  | some s => s ≠ ""
  | none => false

/-- The amount probe of `_pick_fee_details` (main.py lines 359-374): the
first key, in fixed order, whose value parses to a strictly positive
number. -/
def probeAmount (li : LineItem) : Option ℚ :=
  [li.total, li.amount, li.line_total, li.extended, li.ext_amount,
   li.value, li.subtotal, li.charge].findSome?
    (fun f => match toFloat f with
      | some v => if v > 0 then some v else none
      | none => none)

/-- Steps 1-2 of `_pick_fee_details` (main.py lines 351-381): name and
amount from the first matched line item, with the quantity × unit-price
synthesis that is skipped when `charged_only` is set. -/
def pickFeeCore (items : List LineItem) (fallback : Option String)
    (ruleName : Option String) (chargedOnly : Bool) : FeeDetails :=
  let feeName0 := strOr fallback (strOr ruleName "Fee")
  match items with
  | [] => ⟨feeName0, none⟩
  | li :: _ =>
    let feeName1 := strOr li.description (strOr li.name feeName0)
    let amt1 : Option JV := (probeAmount li).map JV.num
    let amt2 :=
      if feeBlank amt1 && !chargedOnly then
        match toFloat (pyOrJ li.quantity li.qty),
              toFloat (pyOrJ li.unit_price (pyOrJ li.rate li.price)) with
        | some q, some u => some (JV.num (round2 (q * u)))
        | _, _ => amt1
      else amt1
    ⟨feeName1, amt2⟩

/-- Step 3 of `_pick_fee_details` (main.py lines 383-399): when the amount
is still blank and both an invoice and a truthy rule name were supplied,
fall back to the invoice's named sub-fee column selected by a keyword of
the rule name. -/
def applyInvoiceFallback (invOpt : Option FeeFields) (ruleName : Option String)
    (fd : FeeDetails) : FeeDetails :=
  if feeBlank fd.fee_amount && invOpt.isSome && strTruthyO ruleName then
    match invOpt with
    | none => fd
    | some inv =>
      let rn := pyLower (ruleName.getD "")
      if strContains rn "handling" then
        if jvPresent inv.handling_fee then
          ⟨if strTruthy (pyStrip fd.fee_name) then fd.fee_name else "Handling Fee",
           inv.handling_fee⟩
        else fd
      else if strContains rn "service" then
        if jvPresent inv.service_fee then
          ⟨if strTruthy (pyStrip fd.fee_name) then fd.fee_name else "Service Fee",
           inv.service_fee⟩
        else fd
      else if strContains rn "surcharge" then
        if jvPresent inv.surcharge then
          ⟨if strTruthy (pyStrip fd.fee_name) then fd.fee_name else "Surcharge",
           inv.surcharge⟩
        else fd
      else fd
  else fd

/-- `_pick_fee_details` (main.py lines 336-401). -/
def pickFeeDetails (items : List LineItem) (fallback : Option String)
    (invOpt : Option FeeFields) (ruleName : Option String)
    (chargedOnly : Bool) : FeeDetails :=
  applyInvoiceFallback invOpt ruleName (pickFeeCore items fallback ruleName chargedOnly)

/-- The caller-side normalisation `(fee.get("fee_name") or "").strip() or None`
(main.py lines 597, 674, 900, 1164). -/
def feeNameNorm (s : String) : Option String :=
  if strTruthy (pyStrip s) then some (pyStrip s) else none

/-- `_is_actionable_fee` (main.py lines 124-127), applied to the normalised
name and the float-coerced amount: non-empty name and strictly positive
amount. -/
def isActionableFee (feeName : Option String) (feeAmount : Option ℚ) : Bool :=
  (match feeName with
   | some s => strTruthy (pyStrip s)
   | none => false)
  && (match feeAmount with
      | some v => v > 0
      | none => false)

example :
    pickFeeDetails [{ description := some "Handling Fee", quantity := some (.num 1),
                      unit_price := some (.num 150), total := some (.num 150) }]
      none none none true = ⟨"Handling Fee", some (.num 150)⟩ := by decide
example :
    (pickFeeDetails [{ description := some "Handling Fee", quantity := some (.num 1),
                       unit_price := some (.num 150), total := some (.num 0) }]
      none none none true).fee_amount = none := by decide

-- ---------------------------------------------------------------------
-- main.py: run_alerts — per-rule creation / duplicate-upgrade step
-- ---------------------------------------------------------------------

/-- The cached evidence blob stored in `match_payload` (the three keys the
creation job writes and the flush job / Read API read; a legacy blob may
carry other keys, which the model does not track). -/
structure MatchPayload where
  rule_name : Option String := none
  matched_keywords : List String := []
  matched_line_items : Option (List LineItem) := none
deriving DecidableEq, Repr

/-- An existing `invoice_alerts` row as refetched on a duplicate-key insert
(main.py lines 649-653: `id, slack_status, slack_error, match_payload`). -/
structure ExistingAlert where
  id : String
  slack_status : Option String := none
  slack_error : Option String := none
  match_payload : Option MatchPayload := none
deriving DecidableEq, Repr

/-- The patch written by the duplicate-upgrade path (main.py lines 678-687). -/
structure UpgradePatch where
  match_payload : MatchPayload
  match_reason : String
  slack_status : Option String
  slack_error : Option String
deriving DecidableEq, Repr

/-- A freshly inserted `invoice_alerts` row (main.py lines 604-617;
`created_at` is an opaque timestamp and not modelled). -/
structure NewAlertRow where
  document_id : String
  rule_id : String
  parsed_invoice_id : Option String
  status : String
  match_reason : String
  match_payload : MatchPayload
  slack_status : String
deriving DecidableEq, Repr

/-- What `run_alerts` does for one (enabled-checked) rule against one
invoice. -/
inductive RuleAction where
  | notEnabled
  | noMatch (reason : String)
  | notActionable (reason : String)
  | insertNew (row : NewAlertRow)
  | upgrade (id : String) (patch : UpgradePatch)
deriving DecidableEq, Repr

/-- The duplicate-upgrade computation (main.py lines 646-695): merge the new
evidence into the payload, recompute the fee with `charged_only=True`, and
reopen `slack_status` to `pending` (clearing `slack_error`) exactly when the
recomputed fee is actionable; otherwise keep the existing values. -/
def upgradePatch (existing : ExistingAlert) (r : Rule) (res : RuleMatchResult)
    (inv : Invoice) : UpgradePatch :=
  let payload : MatchPayload :=
    { rule_name := r.name, matched_keywords := res.matched_keywords,
      matched_line_items := some res.matched_line_items }
  let fee2 := pickFeeDetails res.matched_line_items r.name (some inv.fees) r.name true
  let isAct := isActionableFee (feeNameNorm fee2.fee_name) (toFloat fee2.fee_amount)
  { match_payload := payload,
    match_reason := res.reason,
    slack_status := if isAct then some "pending" else existing.slack_status,
    slack_error := if isAct then none else existing.slack_error }

/-- One iteration of the `run_alerts` per-rule loop (main.py lines 578-708):
skip disabled rules, evaluate `rule_matches`, resolve the fee with
`charged_only=True`, create only actionable alerts, and upgrade in place on
a duplicate-key insert (`existing` is the row already stored for
`(rule_id, parsed_invoice_id)`, if any). -/
def runAlertsRuleStep (r : Rule) (inv : Invoice) (docId : String)
    (existing : Option ExistingAlert) : RuleAction :=
  if !(isRuleEnabled r) then .notEnabled
  else
    let res := ruleMatches r inv
    if !res.matched then .noMatch res.reason
    else
      let fee := pickFeeDetails res.matched_line_items r.name (some inv.fees) r.name true
      if !(isActionableFee (feeNameNorm fee.fee_name) (toFloat fee.fee_amount)) then
        .notActionable res.reason
      else
        match existing with
        | none =>
            .insertNew
              { document_id := docId, rule_id := r.id, parsed_invoice_id := inv.id,
                status := "pending", match_reason := res.reason,
                match_payload :=
                  { rule_name := r.name, matched_keywords := res.matched_keywords,
                    matched_line_items := some res.matched_line_items },
                slack_status := "pending" }
        | some e => .upgrade e.id (upgradePatch e r res inv)

-- ---------------------------------------------------------------------
-- main.py / supa.py: flush_alerts — claim/send/finalize state machine
-- ---------------------------------------------------------------------

/-- An `invoice_alerts` row as scanned by `flush_alerts` (main.py lines
783-787). -/
structure ScannedAlert where
  id : String
  created_at : Option String := none
  rule_id : Option String := none
  document_id : Option String := none
  parsed_invoice_id : Option String := none
  status : Option String := none
  slack_status : Option String := none
  slack_error : Option String := none
  match_payload : Option MatchPayload := none
deriving DecidableEq, Repr

/-- The collaborators of one flush iteration: the rule looked up from
`rules_by_id`, the result of `_fetch_invoice` (`none` models the fetch
raising: parsed invoice missing or storage error), whether the claim
`safe_update_where` call raised (caught per row), and the `ok` field of the
`_slack_post` result (`false` covers both HTTP failure and the
webhook-unset skip). -/
structure FlushEnv where
  ruleOpt : Option Rule := none
  invoiceOpt : Option Invoice := none
  claimError : Bool := false
  slackOk : Bool := false
deriving DecidableEq, Repr

/-- The claim primitive: `safe_update_where(ALERTS_TABLE,
{"slack_status": "sending", ...}, eq={"id": X, "slack_status": "pending"})`
(main.py lines 827-835, supa.py lines 97-106 and 188-213).  PostgREST turns
the `eq` dict into `id=eq.X&slack_status=eq.pending`, a single conditional
UPDATE; on the row's `slack_status` cell it moves `pending → sending` and
reports 1 affected row, and leaves anything else unchanged reporting 0. -/
def claimCAS (db : Option String) : Option String × Nat :=
  if db = some "pending" then (some "sending", 1) else (db, 0)

/-- How one flush iteration ended. -/
inductive FlushOutcome where
  | fastSkip
  | healed
  | notClaimed
  | skippedMissingDoc
  | abortedFetch
  | skippedNonActionable
  | sentOk
  | sendError
deriving DecidableEq, Repr

/-- Observable effect of one flush iteration on one alert row: the row's
authoritative `slack_status` cell afterwards, whether `_slack_post` was
invoked, whether the claim update was attempted and how many rows it
reported, and the branch taken. -/
structure FlushStepResult where
  db : Option String
  posted : Bool
  claimAttempted : Bool
  claimed : Nat
  outcome : FlushOutcome
deriving DecidableEq, Repr

/-- The tail of a claimed flush iteration (main.py lines 904-961): a
non-actionable fee finalizes the row to `skipped` without posting; otherwise
Slack is posted and the row finalizes to `sent` on success or `error`
otherwise. -/
def finalizeDecision (actionable slackOk : Bool) : FlushStepResult :=
  if !actionable then ⟨some "skipped", false, true, 1, .skippedNonActionable⟩
  else if slackOk then ⟨some "sent", true, true, 1, .sentOk⟩
  else ⟨some "error", true, true, 1, .sendError⟩

/-- The post-claim part of a flush iteration (main.py lines 844-961): check
`document_id`, fetch the invoice (raising aborts the whole run, leaving the
row in `sending`), repair missing evidence via `rule_matches`, resolve the
fee, and either finalize to `skipped`, or post to Slack and finalize to
`sent`/`error`.  Signed-URL and Slack-payload construction are pure
formatting with no effect on the state machine and are not modelled. -/
def flushAfterClaim (a : ScannedAlert) (env : FlushEnv) : FlushStepResult :=
  match a.document_id with
  | none => ⟨some "skipped", false, true, 1, .skippedMissingDoc⟩
  | some _ =>
    match env.invoiceOpt with
    | none => ⟨some "sending", false, true, 1, .abortedFetch⟩
    | some invoice =>
      let mp := a.match_payload.getD {}
      let ruleName := strOr mp.rule_name (strOr (env.ruleOpt.bind Rule.name) "Fee")
      let chargedOnly := (env.ruleOpt.map Rule.require_charged_line_items).getD false
      let items :=
        if (mp.matched_line_items.getD []).isEmpty then
          match env.ruleOpt with
          | some rule =>
              let res := ruleMatches rule invoice
              if res.matched then res.matched_line_items else []
          | none => []
        else mp.matched_line_items.getD []
      let fee := pickFeeDetails items (some ruleName) (some invoice.fees)
        (some ruleName) chargedOnly
      finalizeDecision (isActionableFee (feeNameNorm fee.fee_name) (toFloat fee.fee_amount))
        env.slackOk

/-- The first fast-skip test of the flush loop (main.py lines 805-807):
the scanned status is already terminal-successful. -/
def fastSkipTerminal (ss : String) : Bool :=
  ss == "sent" || ss == "ok" || ss == "success"

/-- The second fast-skip test (main.py lines 808-810): anything other than
blank/`pending`/`null` (i.e. `error`, `skipped`, `sending`). -/
def fastSkipOther (ss : String) : Bool :=
  !(ss == "" || ss == "pending" || ss == "null")

/-- The auto-heal test (main.py line 816): business `status` says `sent`. -/
def statusSaysSent (st : String) : Bool := st == "sent"

/-- One iteration of the `flush_alerts` row loop (main.py lines 796-961):
fast-skip on the scanned `slack_status`, auto-heal rows whose business
`status` is `sent`, then attempt the claim CAS against the row's
authoritative cell `db` (which concurrent runs may have changed since the
scan) and, only on a claim of exactly one row, proceed to send. -/
def flushRow (a : ScannedAlert) (env : FlushEnv) (db : Option String) :
    FlushStepResult :=
  let ss := pyLower (pyStrip (a.slack_status.getD ""))
  if fastSkipTerminal ss then ⟨db, false, false, 0, .fastSkip⟩
  else if fastSkipOther ss then ⟨db, false, false, 0, .fastSkip⟩
  else if statusSaysSent (pyLower (a.status.getD "")) then
    ⟨some "sent", false, false, 0, .healed⟩
  else if env.claimError then ⟨db, false, true, 0, .notClaimed⟩
  else
    let c := claimCAS db
    if c.2 ≠ 1 then ⟨c.1, false, true, c.2, .notClaimed⟩
    else flushAfterClaim a env

-- ---------------------------------------------------------------------
-- main.py: batch loops (per-item failure behaviour)
-- ---------------------------------------------------------------------

/-- Per-rule collaborator outcome in the `run_alerts` loop: the evaluation
itself raising (the code has no per-rule handler for this), the insert
succeeding, the insert failing with the duplicate-key signal (handled:
upgrade in place), or the insert failing any other way (re-raised). -/
inductive RuleStepOracle where
  | evalRaises (msg : String)
  | insertOk
  | insertDup (existing : ExistingAlert)
  | insertFails (msg : String)
deriving DecidableEq, Repr

/-- Observable outcome of the `run_alerts` per-rule loop. -/
structure RunLoopResult where
  evaluated : List String := []
  created : List String := []
  upgraded : List String := []
  fatal : Option String := none
deriving DecidableEq, Repr

/-- Helper: record one processed rule in front of the tail result. -/
def consStep (rid : String) (createdHere upgradedHere : Bool)
    (rest : RunLoopResult) : RunLoopResult :=
  { evaluated := rid :: rest.evaluated,
    created := (if createdHere then [rid] else []) ++ rest.created,
    upgraded := (if upgradedHere then [rid] else []) ++ rest.upgraded,
    fatal := rest.fatal }

/-- The `run_alerts` per-rule loop (main.py lines 578-708), with each rule's
storage interaction supplied by an oracle.  The only per-rule exception
handler is the duplicate-key branch; an evaluation exception or a
non-duplicate insert failure escapes to the job-level handler (main.py
lines 727-731), which records `run_alerts_error` and aborts the run — the
remaining rules are not evaluated. -/
def runAlertsLoop (inv : Invoice) (docId : String) :
    List (Rule × RuleStepOracle) → RunLoopResult
  | [] => {}
  | (r, orc) :: rest =>
    if !(isRuleEnabled r) then runAlertsLoop inv docId rest
    else
      match orc with
      | .evalRaises msg => { evaluated := [r.id], fatal := some msg }
      | orc2 =>
        let res := ruleMatches r inv
        if !res.matched then consStep r.id false false (runAlertsLoop inv docId rest)
        else
          let fee := pickFeeDetails res.matched_line_items r.name (some inv.fees) r.name true
          if !(isActionableFee (feeNameNorm fee.fee_name) (toFloat fee.fee_amount)) then
            consStep r.id false false (runAlertsLoop inv docId rest)
          else
            match orc2 with
            | .insertOk => consStep r.id true false (runAlertsLoop inv docId rest)
            | .insertDup _ => consStep r.id false true (runAlertsLoop inv docId rest)
            | .insertFails msg => { evaluated := [r.id], fatal := some msg }
            | .evalRaises msg => { evaluated := [r.id], fatal := some msg }

/-- Observable outcome of the `flush_alerts` row loop. -/
structure FlushLoopResult where
  results : List (String × FlushOutcome) := []
  aborted : Bool := false
deriving DecidableEq, Repr

/-- The `flush_alerts` row loop (main.py lines 796-961; the `limit` budget
is irrelevant to the isolation claims and not modelled).  A claim-step error
is caught per row (main.py lines 836-839) and the loop continues; a
post-claim invoice-fetch error escapes the job-level handler (lines
972-978) and aborts the run, leaving the remaining rows unprocessed. -/
def flushLoop : List (ScannedAlert × FlushEnv × Option String) → FlushLoopResult
  | [] => {}
  | (a, env, db) :: rest =>
    let r := flushRow a env db
    if r.outcome = .abortedFetch then { results := [(a.id, r.outcome)], aborted := true }
    else
      let tail := flushLoop rest
      { results := (a.id, r.outcome) :: tail.results, aborted := tail.aborted }

-- ---------------------------------------------------------------------
-- main.py: /api/alerts two-pass actionability filter
-- ---------------------------------------------------------------------

/-- An `invoice_alerts` row as read by `/api/alerts` (main.py lines
1126-1130). -/
structure ApiAlertRow where
  id : String
  created_at : Option String := none
  document_id : Option String := none
  rule_id : Option String := none
  status : Option String := none
  slack_status : Option String := none
  match_payload : Option MatchPayload := none
deriving DecidableEq, Repr

/-- A `parsed_invoices` row as batch-fetched by `/api/alerts` (main.py
lines 1181-1186): invoice-level display and sub-fee columns only — the
query does not select `line_items`. -/
structure ApiInvoiceRow where
  document_id : Option String := none
  vendor_name : Option String := none
  tail_number : Option String := none
  airport_code : Option String := none
  currency : Option String := none
  handling_fee : Option JV := none
  service_fee : Option JV := none
  surcharge : Option JV := none
deriving DecidableEq, Repr

/-- Projection onto the fields `_pick_fee_details` reads. -/
def ApiInvoiceRow.fees (v : ApiInvoiceRow) : FeeFields :=
  { handling_fee := v.handling_fee, service_fee := v.service_fee,
    surcharge := v.surcharge }

/-- A pass-1 survivor (main.py line 1170). -/
structure Candidate where
  row : ApiAlertRow
  ruleName : Option String
  chargedOnly : Bool
  items : List LineItem
  feeName : Option String
  feeAmount : Option ℚ
deriving DecidableEq, Repr

/-- Pass 1 of `/api/alerts` (main.py lines 1139-1174): resolve the fee from
the cached `match_payload` evidence alone (`invoice=None`) and drop the row
unless actionable. -/
def apiPass1 (r : ApiAlertRow) (ruleOpt : Option Rule) : Option Candidate :=
  let mp := r.match_payload.getD {}
  let ruleName := pyOrS mp.rule_name (ruleOpt.bind Rule.name)
  let chargedOnly := (ruleOpt.map Rule.require_charged_line_items).getD false
  let items := mp.matched_line_items.getD []
  let fee := pickFeeDetails items ruleName none ruleName chargedOnly
  let feeName := feeNameNorm fee.fee_name
  let feeAmount := toFloat fee.fee_amount
  if isActionableFee feeName feeAmount then
    some ⟨r, ruleName, chargedOnly, items, feeName, feeAmount⟩
  else none

/-- A `/api/alerts` output row (the fee/status fields; display enrichment —
vendor, tail, airport inference — has no effect on inclusion and is not
modelled). -/
structure ApiOutRow where
  id : String
  status : Option String
  slack_status : Option String
  rule_name : Option String
  fee_name : Option String
  fee_amount : Option ℚ
deriving DecidableEq, Repr

/-- Pass 2 of `/api/alerts` (main.py lines 1192-1263): when the candidate's
invoice was batch-fetched, recompute the fee with the invoice supplied (the
matched line items still come from the cached payload) and drop the row if
that resolution is not actionable; then apply the `status`/`slack_status`
filters and the text search `q` (over the modelled fields). -/
def apiPass2 (c : Candidate) (invOpt : Option ApiInvoiceRow)
    (statusF slackF q : Option String) : Option ApiOutRow :=
  let fee2? : Option (Option String × Option ℚ) :=
    match invOpt with
    | some inv =>
        let fee2 := pickFeeDetails c.items c.ruleName (some inv.fees) c.ruleName c.chargedOnly
        let n2 := feeNameNorm fee2.fee_name
        let a2 := toFloat fee2.fee_amount
        if isActionableFee n2 a2 then some (n2, a2) else none
    | none => some (c.feeName, c.feeAmount)
  match fee2? with
  | none => none
  | some (feeName, feeAmount) =>
    let row : ApiOutRow :=
      { id := c.row.id, status := c.row.status, slack_status := c.row.slack_status,
        rule_name := c.ruleName, fee_name := feeName, fee_amount := feeAmount }
    if statusF.isSome ∧ pyLower (row.status.getD "") ≠ pyLower (statusF.getD "") then none
    else if slackF.isSome ∧ pyLower (row.slack_status.getD "") ≠ pyLower (slackF.getD "") then
      none
    else
      let qn := pyLower (pyStrip (q.getD ""))
      if strTruthy qn then
        let hay := pyLower (pyJoin " "
          [c.row.document_id.getD "", c.ruleName.getD "", feeName.getD ""])
        if strContains hay qn then some row else none
      else some row

example :
    flushRow { id := "a", document_id := some "d", status := some "pending",
               slack_status := some "pending",
               match_payload := some { matched_line_items := some [{ description := some "Handling Fee", total := some (.num 150) }] } }
      { invoiceOpt := some {}, slackOk := true } (some "pending")
      = ⟨some "sent", true, true, 1, .sentOk⟩ := by decide

-- ---------------------------------------------------------------------
-- Concrete fixtures (inputs for the scenario theorems below)
-- ---------------------------------------------------------------------

/-- Scenario A line item: waived — positive quantity and unit price, zero
total. -/
def liWaived150 : LineItem :=
  { description := some "Handling Fee", quantity := some (.num 1),
    unit_price := some (.num 150), total := some (.num 0) }

/-- Scenario B line item: the same fee, actually charged. -/
def liCharged150 : LineItem :=
  { description := some "Handling Fee", quantity := some (.num 1),
    unit_price := some (.num 150), total := some (.num 150) }

/-- The spec's scenario rule `{keywords:["handling"],
require_charged_line_items:true}` (enabled, as the scenario presumes). -/
def handlingRule : Rule :=
  { id := "r-handling", is_enabled := some true, keywords := some ["handling"],
    require_charged_line_items := true }

/-- A second copy of the scenario rule under another id. -/
def handlingRule2 : Rule := { handlingRule with id := "r-handling2" }

/-- The Scenario A invoice: only line item is the waived fee. -/
def invScenarioA : Invoice := { id := some "p1", line_items := [liWaived150] }

/-- The Scenario B invoice: only line item is the charged fee. -/
def invScenarioB : Invoice := { id := some "p1", line_items := [liCharged150] }

/-- A keyword rule whose name triggers no sub-fee fallback and which does
not require charged line items. -/
def miscRule : Rule :=
  { id := "r-misc", name := some "Misc watch", is_enabled := some true,
    keywords := some ["fee"] }

/-- An already-sent alert row, as refetched on a duplicate insert. -/
def existingSentAlert : ExistingAlert :=
  { id := "a-sent", slack_status := some "sent", slack_error := some "prior-error" }

/-- Cached evidence holding the charged line item. -/
def payloadCharged : MatchPayload :=
  { rule_name := some "Handling Fee Rule", matched_keywords := ["handling"],
    matched_line_items := some [liCharged150] }

/-- A scanned pending alert with intact cached evidence. -/
def scannedPendingAlert : ScannedAlert :=
  { id := "a1", document_id := some "d1", status := some "pending",
    slack_status := some "pending", match_payload := some payloadCharged }

/-- The same pending alert under another id. -/
def scannedPendingAlert2 : ScannedAlert := { scannedPendingAlert with id := "a1b" }

/-- A legacy row whose `slack_status` is the empty string. -/
def scannedBlankAlert : ScannedAlert :=
  { id := "a2", document_id := some "d1", status := some "pending",
    slack_status := some "" }

/-- A flush environment in which everything succeeds. -/
def envHappy : FlushEnv :=
  { ruleOpt := some handlingRule, invoiceOpt := some invScenarioB, slackOk := true }

/-- A flush environment whose invoice fetch raises. -/
def envNoInvoice : FlushEnv :=
  { ruleOpt := some handlingRule, invoiceOpt := none, slackOk := true }

/-- A flush environment whose claim update raises. -/
def envClaimErr : FlushEnv :=
  { ruleOpt := some handlingRule, invoiceOpt := some invScenarioB,
    claimError := true, slackOk := true }

/-- Invoice sub-fee columns reporting a charged handling fee. -/
def feeInv150 : FeeFields := { handling_fee := some (.num 150) }

/-- A rule carrying a per-line-item minimum column (which the code never
reads) alongside an ordinary keyword. -/
def ruleC9 : Rule :=
  { id := "r9", is_enabled := some true, keywords := some ["fee"],
    min_line_item_amount := some (.num 100) }

/-- A line item whose total is far below `ruleC9`'s per-line-item minimum. -/
def liSmall5 : LineItem := { description := some "Service Fee", total := some (.num 5) }

/-- The invoice holding only `liSmall5`. -/
def invC9 : Invoice := { line_items := [liSmall5] }

/-- An enabled keyword-less rule that requires charged line items. -/
def ruleNoKw : Rule :=
  { id := "r10", is_enabled := some true, require_charged_line_items := true }

/-- An enabled rule with no keywords and no other configuration. -/
def plainRule : Rule := { id := "r-plain", is_enabled := some true }

/-- An alert row as read by `/api/alerts`, with actionable cached
evidence. -/
def apiRowCached : ApiAlertRow :=
  { id := "al1", document_id := some "d1", status := some "pending",
    slack_status := some "sent", match_payload := some payloadCharged }

/-- The pass-1 candidate `apiRowCached` produces. -/
def cachedCandidate : Candidate :=
  { row := apiRowCached, ruleName := some "Handling Fee Rule", chargedOnly := true,
    items := [liCharged150], feeName := some "Handling Fee", feeAmount := some 150 }

/-- The live (re-parsed) invoice row for the same document: the fee is now
waived (`handling_fee` 0); `/api/alerts` fetches no line items. -/
def liveWaivedInvoice : ApiInvoiceRow :=
  { document_id := some "d1", vendor_name := some "Signature",
    handling_fee := some (.num 0) }

example : apiPass1 apiRowCached (some handlingRule) = some cachedCandidate := by decide

-- ---------------------------------------------------------------------
-- Shared lemmas
-- ---------------------------------------------------------------------

/-- A rule that matched is necessarily enabled (`rule_matches` fails first
on the enabled flag). -/
theorem matched_implies_enabled (r : Rule) (inv : Invoice)
    (h : (ruleMatches r inv).matched = true) : isRuleEnabled r = true := by
  cases he : isRuleEnabled r
  · simp [ruleMatches, he] at h
  · rfl

/-- With no invoice supplied, `_pick_fee_details` is its first two steps. -/
theorem pickFeeDetails_none (items : List LineItem) (fb rn : Option String)
    (co : Bool) :
    pickFeeDetails items fb none rn co = pickFeeCore items fb rn co := by
  simp [pickFeeDetails, applyInvoiceFallback]

/-- The invoice fallback of `_pick_fee_details` fires only on a blank
amount; a non-blank resolution passes through unchanged. -/
theorem applyInvoiceFallback_not_blank (invOpt : Option FeeFields)
    (rn : Option String) (fd : FeeDetails) (h : feeBlank fd.fee_amount = false) :
    applyInvoiceFallback invOpt rn fd = fd := by
  simp [applyInvoiceFallback, h]

/-- An actionable resolution has a non-blank amount. -/
theorem actionable_not_blank (fd : FeeDetails)
    (h : isActionableFee (feeNameNorm fd.fee_name) (toFloat fd.fee_amount) = true) :
    feeBlank fd.fee_amount = false := by
  cases hfa : fd.fee_amount with
  | none => rw [hfa] at h; simp [isActionableFee, toFloat] at h
  | some v =>
    cases v with
    | num q => rfl
    | str s =>
      by_contra hb
      simp [feeBlank] at hb
      rw [hfa, hb] at h
      have : toFloat (some (JV.str "")) = none := by decide
      rw [this] at h
      simp [isActionableFee] at h

/-- On a non-blank pass-1 amount, supplying the invoice does not change the
resolution at all. -/
theorem pickFeeDetails_invoice_irrelevant (items : List LineItem)
    (fb rn : Option String) (co : Bool) (ff : FeeFields)
    (h : feeBlank ((pickFeeDetails items fb none rn co).fee_amount) = false) :
    pickFeeDetails items fb (some ff) rn co = pickFeeDetails items fb none rn co := by
  rw [pickFeeDetails_none] at h ⊢
  exact applyInvoiceFallback_not_blank (some ff) rn _ h

-- ---------------------------------------------------------------------
-- C5 — scenarios A and B of the charged-line-item gate
-- ---------------------------------------------------------------------

/-- C5: for the rule `{keywords:["handling"], require_charged_line_items:true}`
and the invoice whose only line item is the waived `Handling Fee`
(quantity 1, unit price 150, total 0), `rule_matches` fails with
"no charged line item matches" and `run_alerts` creates no row; with
total 150 instead, the rule matches, the fee resolver returns
`("Handling Fee", 150)`, the alert is actionable, and `run_alerts` inserts
a pending row. -/
theorem c5_charged_gate_scenarios :
    ruleMatches handlingRule invScenarioA =
      { matched := false, reason := "no charged line item matches",
        matched_line_items := [], matched_keywords := ["handling"] }
    ∧ runAlertsRuleStep handlingRule invScenarioA "d1" none =
        .noMatch "no charged line item matches"
    ∧ (ruleMatches handlingRule invScenarioB).matched = true
    ∧ pickFeeDetails (ruleMatches handlingRule invScenarioB).matched_line_items
        handlingRule.name (some invScenarioB.fees) handlingRule.name true
        = ⟨"Handling Fee", some (.num 150)⟩
    ∧ isActionableFee (feeNameNorm "Handling Fee") (toFloat (some (.num 150))) = true
    ∧ runAlertsRuleStep handlingRule invScenarioB "d1" none =
        .insertNew
          { document_id := "d1", rule_id := "r-handling",
            parsed_invoice_id := some "p1", status := "pending",
            match_reason := "keyword match: handling",
            match_payload :=
              { rule_name := none, matched_keywords := ["handling"],
                matched_line_items := some [liCharged150] },
            slack_status := "pending" } := by decide

-- ---------------------------------------------------------------------
-- C1 — the duplicate-upgrade path and sent rows
-- ---------------------------------------------------------------------

/-- C1 counterexample: a duplicate creation attempt against an existing row
whose `slack_status` is `sent`, with the same actionable evidence, writes a
patch that sets `slack_status` back to `pending` (and clears `slack_error`)
— the upgrade does not leave `slack_status = 'sent'` untouched. -/
theorem c1_upgrade_reopens_sent_row :
    existingSentAlert.slack_status = some "sent"
    ∧ runAlertsRuleStep handlingRule invScenarioB "d1" (some existingSentAlert) =
        .upgrade "a-sent"
          { match_payload :=
              { rule_name := none, matched_keywords := ["handling"],
                matched_line_items := some [liCharged150] },
            match_reason := "keyword match: handling",
            slack_status := some "pending", slack_error := none } := by decide

/-- C1 (amended): whenever the duplicate-upgrade path of `run_alerts` runs,
the written patch carries the new evidence and the new reason, and always
resets `slack_status` to `pending` and clears `slack_error` — because the
insert is only attempted for actionable fees and the upgrade recomputes the
very same resolution — regardless of the existing row's state, including
`sent`. -/
theorem c1_upgrade_always_reopens (r : Rule) (inv : Invoice) (docId : String)
    (e : ExistingAlert) (i : String) (p : UpgradePatch)
    (h : runAlertsRuleStep r inv docId (some e) = .upgrade i p) :
    p.slack_status = some "pending" ∧ p.slack_error = none
    ∧ p.match_reason = (ruleMatches r inv).reason
    ∧ p.match_payload =
        { rule_name := r.name,
          matched_keywords := (ruleMatches r inv).matched_keywords,
          matched_line_items := some (ruleMatches r inv).matched_line_items } := by
  by_cases hen : isRuleEnabled r
  · by_cases hm : (ruleMatches r inv).matched
    · by_cases hact :
        isActionableFee
          (feeNameNorm (pickFeeDetails (ruleMatches r inv).matched_line_items r.name
            (some inv.fees) r.name true).fee_name)
          (toFloat (pickFeeDetails (ruleMatches r inv).matched_line_items r.name
            (some inv.fees) r.name true).fee_amount)
      · unfold runAlertsRuleStep at h
        simp only [hen, hm, hact, Bool.not_true, Bool.false_eq_true, if_false,
          RuleAction.upgrade.injEq] at h
        obtain ⟨-, hp⟩ := h
        subst hp
        unfold upgradePatch
        simp [hact]
      · unfold runAlertsRuleStep at h
        simp [hen, hm, hact] at h
    · unfold runAlertsRuleStep at h
      simp [hen, hm] at h
  · unfold runAlertsRuleStep at h
    simp [hen] at h

/-- C1 witness: the amended theorem applied to the sent-row fixture. -/
theorem c1_upgrade_always_reopens_witness :
    (upgradePatch existingSentAlert handlingRule
        (ruleMatches handlingRule invScenarioB) invScenarioB).slack_status = some "pending"
    ∧ (upgradePatch existingSentAlert handlingRule
        (ruleMatches handlingRule invScenarioB) invScenarioB).slack_error = none
    ∧ (upgradePatch existingSentAlert handlingRule
        (ruleMatches handlingRule invScenarioB) invScenarioB).match_reason
        = (ruleMatches handlingRule invScenarioB).reason
    ∧ (upgradePatch existingSentAlert handlingRule
        (ruleMatches handlingRule invScenarioB) invScenarioB).match_payload =
        { rule_name := handlingRule.name,
          matched_keywords := (ruleMatches handlingRule invScenarioB).matched_keywords,
          matched_line_items := some (ruleMatches handlingRule invScenarioB).matched_line_items } :=
  c1_upgrade_always_reopens handlingRule invScenarioB "d1" existingSentAlert "a-sent"
    (upgradePatch existingSentAlert handlingRule (ruleMatches handlingRule invScenarioB)
      invScenarioB) (by decide)

-- ---------------------------------------------------------------------
-- C3 — non-actionable matches and alert creation
-- ---------------------------------------------------------------------

/-- C3 counterexample: a rule that matches (keyword `fee` against the waived
`Handling Fee` line item, no charged-items requirement) but whose resolved
fee (with `charged_only=True`) is not actionable produces *no* stored alert
row — `run_alerts` skips the insert entirely (`ACTIONABLE ONLY`, main.py
line 600), contradicting the claim that non-actionable matches are still
stored. -/
theorem c3_non_actionable_not_stored :
    (ruleMatches miscRule invScenarioA).matched = true
    ∧ runAlertsRuleStep miscRule invScenarioA "d1" none =
        .notActionable "keyword match: fee" := by decide

/-- C3 (amended): for every matched (rule, invoice) pair whose resolved fee
(`charged_only=True`) is not actionable, `run_alerts` neither inserts nor
upgrades — no alert row is stored for the pair. -/
theorem c3_matched_not_actionable_skips (r : Rule) (inv : Invoice) (docId : String)
    (ex : Option ExistingAlert)
    (hm : (ruleMatches r inv).matched = true)
    (hact : isActionableFee
        (feeNameNorm (pickFeeDetails (ruleMatches r inv).matched_line_items r.name
          (some inv.fees) r.name true).fee_name)
        (toFloat (pickFeeDetails (ruleMatches r inv).matched_line_items r.name
          (some inv.fees) r.name true).fee_amount) = false) :
    runAlertsRuleStep r inv docId ex = .notActionable (ruleMatches r inv).reason := by
  have hen := matched_implies_enabled r inv hm
  unfold runAlertsRuleStep
  simp [hen, hm, hact]

/-- C3 witness: the amended theorem applied to the matched-but-waived
fixture. -/
theorem c3_matched_not_actionable_skips_witness :
    runAlertsRuleStep miscRule invScenarioA "d1" none =
      .notActionable (ruleMatches miscRule invScenarioA).reason :=
  c3_matched_not_actionable_skips miscRule invScenarioA "d1" none (by decide) (by decide)

-- ---------------------------------------------------------------------
-- C4 — the anti-spam guard of the fee resolver
-- ---------------------------------------------------------------------

/-- C4 counterexample: `_pick_fee_details` with `charged_only=True` on a
single waived line item *does* return a strictly positive amount when an
invoice with a positive `handling_fee` and a rule name containing
`handling` are supplied — the named sub-fee fallback is not gated by
`charged_only`, so the resolution is actionable. -/
theorem c4_waived_with_invoice_actionable :
    isWaivedLineItem liWaived150 = true
    ∧ pickFeeDetails [liWaived150] (some "Handling") (some feeInv150)
        (some "Handling") true = ⟨"Handling Fee", some (.num 150)⟩
    ∧ isActionableFee (feeNameNorm "Handling Fee") (toFloat (some (.num 150))) = true := by
  decide

/-- C4 (amended): with `charged_only=True` and no invoice supplied, a list
of line items none of which probes to a positive amount (in particular a
waived item whose only amount field is a zero total) resolves to no amount
at all — the quantity × unit-price synthesis is skipped — and the
resolution is not actionable.  (The invoice sub-fee fallback, when an
invoice and rule name are supplied, is not gated by `charged_only`.) -/
theorem c4_charged_only_no_synthesis (items : List LineItem)
    (fb rn : Option String) (h : ∀ li ∈ items, probeAmount li = none) :
    (pickFeeDetails items fb none rn true).fee_amount = none
    ∧ isActionableFee
        (feeNameNorm (pickFeeDetails items fb none rn true).fee_name)
        (toFloat (pickFeeDetails items fb none rn true).fee_amount) = false := by
  have hamt : (pickFeeDetails items fb none rn true).fee_amount = none := by
    rw [pickFeeDetails_none]
    cases items with
    | nil => rfl
    | cons li rest =>
        have hp : probeAmount li = none := h li (by simp)
        simp [pickFeeCore, hp, feeBlank]
  refine ⟨hamt, ?_⟩
  rw [hamt]
  simp [isActionableFee, toFloat]

/-- C4 witness: the amended theorem applied to the waived fixture item. -/
theorem c4_charged_only_no_synthesis_witness :
    (pickFeeDetails [liWaived150] (some "Handling") none (some "Handling") true).fee_amount
      = none
    ∧ isActionableFee
        (feeNameNorm (pickFeeDetails [liWaived150] (some "Handling") none
          (some "Handling") true).fee_name)
        (toFloat (pickFeeDetails [liWaived150] (some "Handling") none
          (some "Handling") true).fee_amount) = false :=
  c4_charged_only_no_synthesis [liWaived150] (some "Handling") (some "Handling") (by decide)

-- ---------------------------------------------------------------------
-- C9 — per-line-item minimum
-- ---------------------------------------------------------------------

/-- C9 counterexample: a rule that specifies a per-line-item minimum of 100
against an invoice whose only matched line item totals 5: the claim predicts
the matched items are filtered to those meeting the minimum and, none
remaining, `matched=false` with reason `"no line items >= 100"`; the code
instead matches, keeps the item, and reports a keyword match. -/
theorem c9_min_line_item_ignored :
    toFloat ruleC9.min_line_item_amount = some 100
    ∧ toFloat liSmall5.total = some 5
    ∧ ruleMatches ruleC9 invC9 =
        { matched := true, reason := "keyword match: fee",
          matched_line_items := [liSmall5], matched_keywords := ["fee"] } := by decide

/-- C9 (amended): `rule_matches` implements no per-line-item minimum —
the `min_line_item_amount` column is never read, so matching is identical
whatever its value, matched items are never filtered by such a threshold,
and no `"no line items >= …"` failure exists. -/
theorem c9_min_line_item_invariant (r : Rule) (inv : Invoice) (v : Option JV) :
    ruleMatches { r with min_line_item_amount := v } inv = ruleMatches r inv := by
  cases r
  rfl

-- ---------------------------------------------------------------------
-- C10 — keyword-less rules
-- ---------------------------------------------------------------------

/-- C10 counterexample: an enabled keyword-less rule with
`require_charged_line_items=true` fails on every invoice with
"no charged line item matches" — a keyword-less rule clearing the
enumerated filters does not always match. -/
theorem c10_keywordless_charged_fails :
    (ruleNoKw.keywords.getD []).isEmpty = true
    ∧ isRuleEnabled ruleNoKw = true
    ∧ ruleMatches ruleNoKw {} =
        { matched := false, reason := "no charged line item matches",
          matched_line_items := [], matched_keywords := [] } := by decide

/-- C10 (amended): for every enabled rule whose keyword list is empty or
absent and whose `require_charged_line_items` flag is false, and every
invoice clearing the allow-list filters, review check and configured
minimum thresholds, `rule_matches` returns `matched=true` with reason
`"matched"`, no matched line items and no matched keywords. -/
theorem c10_keywordless_matches (r : Rule) (inv : Invoice)
    (hen : isRuleEnabled r = true)
    (hkw : r.keywords.getD [] = [])
    (hchg : r.require_charged_line_items = false)
    (hv : vendorFilterFails r inv = false)
    (hd : docTypeFilterFails r inv = false)
    (ha : airportFilterFails r inv = false)
    (hrev : reviewFails r inv = false)
    (ht : minTotalFails r inv = false)
    (hh : minHandlingFails r inv = false)
    (hs : minServiceFails r inv = false)
    (hsur : minSurchargeFails r inv = false)
    (hr : riskFails r inv = false) :
    ruleMatches r inv =
      { matched := true, reason := "matched",
        matched_line_items := [], matched_keywords := [] } := by
  unfold ruleMatches
  rw [hen, hv, hd, ha, hrev, ht, hh, hs, hsur, hr]
  simp only [hkw, hchg, keywordMatch, List.map_nil, List.filter_nil, List.isEmpty_nil,
    if_true, Bool.not_true, Bool.false_and, Bool.and_self, if_false, sortStrings]
  rfl

/-- C10 witness: the amended theorem applied to a bare enabled rule and the
empty invoice. -/
theorem c10_keywordless_matches_witness :
    ruleMatches plainRule {} =
      { matched := true, reason := "matched",
        matched_line_items := [], matched_keywords := [] } :=
  c10_keywordless_matches plainRule {} (by decide) (by decide) (by decide) (by decide)
    (by decide) (by decide) (by decide) (by decide) (by decide) (by decide)
    (by decide) (by decide)

-- ---------------------------------------------------------------------
-- C6 — blank/null slack_status rows in flush_alerts
-- ---------------------------------------------------------------------

/-- C6 counterexample: a scanned row whose `slack_status` is blank passes
the fast-skip and reaches the claim step *without any normalisation
write*; the claim CAS requires the literal `pending`, matches 0 rows
against the blank cell, and the row is skipped with its `slack_status`
still blank — it is not made claimable. -/
theorem c6_blank_row_not_normalized :
    pyLower (pyStrip (scannedBlankAlert.slack_status.getD "")) = ""
    ∧ flushRow scannedBlankAlert envHappy (some "") =
        { db := some "", posted := false, claimAttempted := true, claimed := 0,
          outcome := .notClaimed } := by decide

/-- C6 (amended): `flush_alerts` never normalises a blank/`null`
`slack_status` to `pending`: a scanned row whose `slack_status` is
blank/`null`, whose business `status` is not `sent` (the auto-heal case,
which writes `sent`, not `pending`), and whose authoritative cell is
blank/`null` is left completely unchanged — no write, no post — and in
particular its cell never becomes `pending`, so the row is skipped again on
every later run. -/
theorem c6_blank_rows_skipped (a : ScannedAlert) (env : FlushEnv) (db : Option String)
    (hss : pyLower (pyStrip (a.slack_status.getD "")) = ""
      ∨ pyLower (pyStrip (a.slack_status.getD "")) = "null")
    (hst : pyLower (a.status.getD "") ≠ "sent")
    (hdb : db = none ∨ db = some "" ∨ db = some "null") :
    (flushRow a env db).db = db ∧ (flushRow a env db).posted = false
    ∧ (flushRow a env db).db ≠ some "pending" := by
  have hdbp : db ≠ some "pending" := by
    rcases hdb with rfl | rfl | rfl <;> simp
  have hcas : claimCAS db = (db, 0) := by
    unfold claimCAS
    simp [hdbp]
  have hC : statusSaysSent (pyLower (a.status.getD "")) = false := by
    simp [statusSaysSent, hst]
  have hmain : (flushRow a env db).db = db ∧ (flushRow a env db).posted = false := by
    rcases hss with h | h <;>
      · by_cases hce : env.claimError <;>
          simp [flushRow, h, hC, hce, hcas, fastSkipTerminal, fastSkipOther]
  refine ⟨hmain.1, hmain.2, ?_⟩
  rw [hmain.1]
  exact hdbp

/-- C6 witness: the amended theorem applied to the blank-status fixture. -/
theorem c6_blank_rows_skipped_witness :
    (flushRow scannedBlankAlert envHappy (some "")).db = some ""
    ∧ (flushRow scannedBlankAlert envHappy (some "")).posted = false
    ∧ (flushRow scannedBlankAlert envHappy (some "")).db ≠ some "pending" :=
  c6_blank_rows_skipped scannedBlankAlert envHappy (some "")
    (Or.inl (by decide)) (by decide) (Or.inr (Or.inl rfl))

-- ---------------------------------------------------------------------
-- C2 — the claim CAS and at-most-one send
-- ---------------------------------------------------------------------

/-- The claim reports one affected row exactly when the cell held the
literal `pending`. -/
theorem claimCAS_snd_eq_one (db : Option String) :
    (claimCAS db).2 = 1 ↔ db = some "pending" := by
  unfold claimCAS
  split <;> simp_all

/-- A cell not holding `pending` — `sending`, `sent`, `error`, `skipped`,
blank, anything — is never claimed: the CAS changes nothing and reports 0
rows. -/
theorem claimCAS_not_pending (db : Option String) (h : db ≠ some "pending") :
    claimCAS db = (db, 0) := by
  unfold claimCAS
  simp [h]

/-- The finalize step always reports the claim as attempted with exactly
one affected row, and posts only into `sent`/`error`. -/
theorem finalizeDecision_spec (act ok : Bool) :
    (finalizeDecision act ok).claimAttempted = true
    ∧ (finalizeDecision act ok).claimed = 1
    ∧ ((finalizeDecision act ok).posted = false
        ∨ (finalizeDecision act ok).db = some "sent"
        ∨ (finalizeDecision act ok).db = some "error") := by
  cases act <;> cases ok <;> simp [finalizeDecision]

/-- Everything after a successful claim reports the claim as attempted with
exactly one affected row. -/
theorem flushAfterClaim_claim_fields (a : ScannedAlert) (env : FlushEnv) :
    (flushAfterClaim a env).claimAttempted = true
    ∧ (flushAfterClaim a env).claimed = 1 := by
  unfold flushAfterClaim
  cases a.document_id with
  | none => exact ⟨rfl, rfl⟩
  | some d =>
    cases env.invoiceOpt with
    | none => exact ⟨rfl, rfl⟩
    | some inv =>
      exact ⟨(finalizeDecision_spec _ _).1, (finalizeDecision_spec _ _).2.1⟩

/-- After a successful claim, either no post happens, or the cell is
finalized to `sent` or `error`. -/
theorem flushAfterClaim_cases (a : ScannedAlert) (env : FlushEnv) :
    (flushAfterClaim a env).posted = false
    ∨ (flushAfterClaim a env).db = some "sent"
    ∨ (flushAfterClaim a env).db = some "error" := by
  unfold flushAfterClaim
  cases a.document_id with
  | none => exact Or.inl rfl
  | some d =>
    cases env.invoiceOpt with
    | none => exact Or.inl rfl
    | some inv =>
      exact (finalizeDecision_spec _ _).2.2

/-- A post happens only on a row claimed from `pending` (the CAS reported
exactly one row), and such a row ends the iteration at `sent` or `error`. -/
theorem flushRow_posted_spec (a : ScannedAlert) (env : FlushEnv) (db : Option String)
    (h : (flushRow a env db).posted = true) :
    db = some "pending" ∧ (flushRow a env db).claimed = 1
    ∧ ((flushRow a env db).db = some "sent" ∨ (flushRow a env db).db = some "error") := by
  by_cases hA : fastSkipTerminal (pyLower (pyStrip (a.slack_status.getD "")))
  · simp [flushRow, hA] at h
  · by_cases hB : fastSkipOther (pyLower (pyStrip (a.slack_status.getD "")))
    · simp [flushRow, hA, hB] at h
    · by_cases hC : statusSaysSent (pyLower (a.status.getD ""))
      · simp [flushRow, hA, hB, hC] at h
      · by_cases hD : env.claimError
        · simp [flushRow, hA, hB, hC, hD] at h
        · by_cases hE : (claimCAS db).2 ≠ 1
          · simp [flushRow, hA, hB, hC, hD, hE] at h
          · push_neg at hE
            have hdb : db = some "pending" := (claimCAS_snd_eq_one db).mp hE
            have hres : flushRow a env db = flushAfterClaim a env := by
              simp [flushRow, hA, hB, hC, hD, hE]
            rw [hres] at h ⊢
            refine ⟨hdb, (flushAfterClaim_claim_fields a env).2, ?_⟩
            rcases flushAfterClaim_cases a env with hp | hdb' | hdb'
            · rw [h] at hp; exact absurd hp (by simp)
            · exact Or.inl hdb'
            · exact Or.inr hdb'

/-- When the claim was attempted but reported 0 rows, the iteration posts
nothing and writes nothing. -/
theorem flushRow_claim_zero_spec (a : ScannedAlert) (env : FlushEnv)
    (db : Option String)
    (hca : (flushRow a env db).claimAttempted = true)
    (hcl : (flushRow a env db).claimed = 0) :
    (flushRow a env db).posted = false ∧ (flushRow a env db).db = db := by
  by_cases hA : fastSkipTerminal (pyLower (pyStrip (a.slack_status.getD "")))
  · simp [flushRow, hA] at hca
  · by_cases hB : fastSkipOther (pyLower (pyStrip (a.slack_status.getD "")))
    · simp [flushRow, hA, hB] at hca
    · by_cases hC : statusSaysSent (pyLower (a.status.getD ""))
      · simp [flushRow, hA, hB, hC] at hca
      · by_cases hD : env.claimError
        · simp [flushRow, hA, hB, hC, hD]
        · by_cases hE : (claimCAS db).2 ≠ 1
          · have hdb : db ≠ some "pending" := by
              intro hp
              exact hE (((claimCAS_snd_eq_one db).mpr hp))
            have hcas := claimCAS_not_pending db hdb
            simp [flushRow, hA, hB, hC, hD, hE, hcas]
          · push_neg at hE
            have hres : flushRow a env db = flushAfterClaim a env := by
              simp [flushRow, hA, hB, hC, hD, hE]
            rw [hres] at hcl
            have := (flushAfterClaim_claim_fields a env).2
            rw [this] at hcl
            exact absurd hcl (by simp)

/-- C2: within `flush_alerts`, a Slack post for a row happens only after
the conditional update `slack_status='sending' WHERE id=… AND
slack_status='pending'` reports exactly one affected row; a claim reporting
0 rows means no post and no writes for that row; cells in `sending`,
`sent`, `error`, `skipped` (anything but the literal `pending`) are never
claimed; and of two flush iterations hitting the same cell in sequence, at
most one posts. -/
theorem c2_at_most_one_send :
    (∀ a env db, (flushRow a env db).posted = true →
      db = some "pending" ∧ (flushRow a env db).claimed = 1)
    ∧ (∀ a env db, (flushRow a env db).claimAttempted = true →
        (flushRow a env db).claimed = 0 →
        (flushRow a env db).posted = false ∧ (flushRow a env db).db = db)
    ∧ (∀ db, db ≠ some "pending" → claimCAS db = (db, 0))
    ∧ (∀ a1 e1 a2 e2 db,
        ¬((flushRow a1 e1 db).posted = true
          ∧ (flushRow a2 e2 ((flushRow a1 e1 db).db)).posted = true)) := by
  refine ⟨?_, ?_, ?_, ?_⟩
  · intro a env db h
    exact ⟨(flushRow_posted_spec a env db h).1, (flushRow_posted_spec a env db h).2.1⟩
  · intro a env db hca hcl
    exact flushRow_claim_zero_spec a env db hca hcl
  · intro db h
    exact claimCAS_not_pending db h
  · intro a1 e1 a2 e2 db hcontra
    obtain ⟨h1, h2⟩ := hcontra
    obtain ⟨-, -, hterm⟩ := flushRow_posted_spec a1 e1 db h1
    obtain ⟨hdb2, -, -⟩ := flushRow_posted_spec a2 e2 _ h2
    rcases hterm with h | h <;> rw [h] at hdb2 <;> exact absurd hdb2 (by simp)

/-- C2 witness: the happy-path fixture posts, and the theorem applied to it
confirms it was claimed from `pending` with one affected row. -/
theorem c2_at_most_one_send_witness :
    (flushRow scannedPendingAlert envHappy (some "pending")).posted = true
    ∧ ((some "pending" : Option String) = some "pending"
        ∧ (flushRow scannedPendingAlert envHappy (some "pending")).claimed = 1) :=
  ⟨by decide,
   c2_at_most_one_send.1 scannedPendingAlert envHappy (some "pending") (by decide)⟩

-- ---------------------------------------------------------------------
-- C7 — per-item failure behaviour of the batch jobs
-- ---------------------------------------------------------------------

/-- A claim-step error can only end an iteration in a skip/heal branch,
never in the run-aborting fetch branch. -/
theorem flushRow_claimError_no_abort (a : ScannedAlert) (env : FlushEnv)
    (db : Option String) (h : env.claimError = true) :
    (flushRow a env db).outcome ≠ FlushOutcome.abortedFetch := by
  by_cases hA : fastSkipTerminal (pyLower (pyStrip (a.slack_status.getD "")))
  · simp [flushRow, hA]
  · by_cases hB : fastSkipOther (pyLower (pyStrip (a.slack_status.getD "")))
    · simp [flushRow, hA, hB]
    · by_cases hC : statusSaysSent (pyLower (a.status.getD ""))
      · simp [flushRow, hA, hB, hC]
      · simp [flushRow, hA, hB, hC, h]

/-- C7 counterexample: a non-duplicate insert failure on the first rule
aborts the whole `run_alerts` run — the second (enabled, matching,
actionable) rule is never evaluated; and an invoice-fetch failure on the
first claimed alert aborts the whole `flush_alerts` run — the second
pending row is never processed.  Neither error is isolated per item. -/
theorem c7_one_bad_item_aborts_run :
    runAlertsLoop invScenarioB "d1"
        [(handlingRule, .insertFails "db down"), (handlingRule2, .insertOk)]
      = { evaluated := ["r-handling"], created := [], upgraded := [],
          fatal := some "db down" }
    ∧ flushLoop
        [(scannedPendingAlert, envNoInvoice, some "pending"),
         (scannedPendingAlert2, envHappy, some "pending")]
      = { results := [("a1", .abortedFetch)], aborted := true } := by decide

/-- C7 (amended): the only failures isolated per item are the duplicate-key
insert (handled by the upgrade path: the loop records the rule and
continues over the remaining rules unchanged) and a claim-step error in
`flush_alerts` (the row is skipped and the remaining rows are processed
unchanged); an evaluation error or non-duplicate insert error in
`run_alerts`, or a post-claim error in `flush_alerts`, aborts the whole
run. -/
theorem c7_duplicate_and_claim_isolated :
    (∀ (inv : Invoice) (docId : String) (r : Rule) (e : ExistingAlert)
        (rest : List (Rule × RuleStepOracle)), isRuleEnabled r = true →
      (runAlertsLoop inv docId ((r, .insertDup e) :: rest)).evaluated
          = r.id :: (runAlertsLoop inv docId rest).evaluated
        ∧ (runAlertsLoop inv docId ((r, .insertDup e) :: rest)).fatal
          = (runAlertsLoop inv docId rest).fatal)
    ∧ (∀ (a : ScannedAlert) (env : FlushEnv) (db : Option String)
          (rest : List (ScannedAlert × FlushEnv × Option String)),
        env.claimError = true →
        (flushLoop ((a, env, db) :: rest)).results
            = (a.id, (flushRow a env db).outcome) :: (flushLoop rest).results
          ∧ (flushLoop ((a, env, db) :: rest)).aborted = (flushLoop rest).aborted) := by
  constructor
  · intro inv docId r e rest hen
    simp only [runAlertsLoop, hen, Bool.not_true, Bool.false_eq_true, if_false]
    split
    · simp [consStep]
    · split
      · simp [consStep]
      · simp [consStep]
  · intro a env db rest h
    simp only [flushLoop]
    simp [flushRow_claimError_no_abort a env db h]

/-- C7 witness: both isolated paths exercised on concrete fixtures. -/
theorem c7_duplicate_and_claim_isolated_witness :
    ((runAlertsLoop invScenarioB "d1" [(handlingRule, .insertDup existingSentAlert)]).evaluated
        = handlingRule.id :: (runAlertsLoop invScenarioB "d1" []).evaluated
      ∧ (runAlertsLoop invScenarioB "d1" [(handlingRule, .insertDup existingSentAlert)]).fatal
        = (runAlertsLoop invScenarioB "d1" []).fatal)
    ∧ ((flushLoop [(scannedPendingAlert, envClaimErr, some "pending")]).results
        = (scannedPendingAlert.id,
            (flushRow scannedPendingAlert envClaimErr (some "pending")).outcome)
          :: (flushLoop []).results
      ∧ (flushLoop [(scannedPendingAlert, envClaimErr, some "pending")]).aborted
        = (flushLoop []).aborted) :=
  ⟨c7_duplicate_and_claim_isolated.1 invScenarioB "d1" handlingRule existingSentAlert []
     (by decide),
   c7_duplicate_and_claim_isolated.2 scannedPendingAlert envClaimErr (some "pending") []
     (by decide)⟩

-- ---------------------------------------------------------------------
-- C8 — the /api/alerts live re-check
-- ---------------------------------------------------------------------

/-- C8 counterexample: an alert row whose cached evidence (line-item total
150) is actionable stays in the `/api/alerts` output even though the live
invoice for the same document now shows the fee waived (`handling_fee` 0)
— the batch invoice query fetches no `line_items`, so the pass-2 recompute
reuses the cached matched line items and cannot turn the resolution
non-actionable.  The row is not excluded. -/
theorem c8_live_waived_row_still_included :
    apiPass1 apiRowCached (some handlingRule) = some cachedCandidate
    ∧ toFloat liveWaivedInvoice.handling_fee = some 0
    ∧ apiPass2 cachedCandidate (some liveWaivedInvoice) none none none =
        some { id := "al1", status := some "pending", slack_status := some "sent",
               rule_name := some "Handling Fee Rule",
               fee_name := some "Handling Fee", fee_amount := some 150 } := by decide

/-- C8 (amended): the pass-2 live re-check can never exclude a row that
pass 1 admitted: the recompute reuses the cached `matched_line_items` (the
live invoice row carries no line items) and the invoice sub-fee fallback
only fires on a blank amount, so every pass-1 candidate is included in the
unfiltered response whatever the live invoice says. -/
theorem c8_live_recheck_cannot_exclude (r : ApiAlertRow) (ruleOpt : Option Rule)
    (c : Candidate) (invOpt : Option ApiInvoiceRow)
    (h : apiPass1 r ruleOpt = some c) :
    (apiPass2 c invOpt none none none).isSome = true := by
  have hq : strTruthy (pyLower (pyStrip "")) = false := by decide
  simp only [apiPass1] at h
  split at h
  case isFalse => exact absurd h (by simp)
  case isTrue hact =>
    rw [Option.some.injEq] at h
    subst h
    have hblank := actionable_not_blank _ hact
    cases invOpt with
    | none =>
      simp [apiPass2, hq]
    | some inv =>
      have heq := pickFeeDetails_invoice_irrelevant _ _ _ _ inv.fees hblank
      simp [apiPass2, heq, hact, hq]

/-- C8 witness: the amended theorem applied to the cached-actionable row
and the live waived invoice. -/
theorem c8_live_recheck_cannot_exclude_witness :
    (apiPass2 cachedCandidate (some liveWaivedInvoice) none none none).isSome = true :=
  c8_live_recheck_cannot_exclude apiRowCached (some handlingRule) cachedCandidate
    (some liveWaivedInvoice) (by decide)
